import Mathlib

/-!
Verification development for the orc-sh/scheduler repository.

Shallow embedding of the core of the system:
the cron tier validator (`app/utils/cron_validator.py`),
the rate limiter (`app/services/rate_limiter_service.py`),
the execution worker (`app/tasks/execute_job.py`),
the scheduler poller (`app/services/scheduler_service.py`),
and the load-run engine (`app/services/load_test_service.py`,
`app/services/webhook_service.py`).

Python strings are `String`, integers are `Int`/`Nat`, `None`able values are
`Option`, raised exceptions are `Except` errors, wall-clock instants are
integer seconds (the source truncates all time deltas to whole seconds).
External collaborators (the croniter library, Redis, the HTTP client, the
database) enter as explicit parameters: the values the source would have read
from them.
-/

namespace OrcSched

/-! ## Python string primitives used by the source

Implemented structurally over the underlying character lists so that every
definition evaluates by kernel reduction on concrete inputs. -/

/-- Worker for `pySplit`: accumulate the current run of non-whitespace
characters (reversed). -/
def splitWsAux : List Char → List Char → List String
  | [], acc => if acc.isEmpty then [] else [String.mk acc.reverse]
  | c :: cs, acc =>
      if c.isWhitespace then
        if acc.isEmpty then splitWsAux cs []
        else String.mk acc.reverse :: splitWsAux cs []
      else splitWsAux cs (c :: acc)

/-- Python `str.split()` with no argument: split on whitespace runs,
discarding empty pieces. -/
def pySplit (s : String) : List String :=
  splitWsAux s.data []

/-- Python `str.strip()`. -/
def pyTrim (s : String) : String :=
  String.mk (((s.data.dropWhile Char.isWhitespace).reverse.dropWhile
    Char.isWhitespace).reverse)

/-- Python `s.startswith(pre)`. -/
def pyStartsWith (s pre : String) : Bool :=
  pre.data.isPrefixOf s.data

/-- Python `str.lower()` (ASCII case folding, which is all the source needs). -/
def pyLower (s : String) : String :=
  String.mk (s.data.map Char.toLower)

/-- Python `s[n:]`. -/
def strDrop (s : String) (n : Nat) : String :=
  String.mk (s.data.drop n)

/-- Python `str.isdigit()` restricted to ASCII digits: true iff the string is
nonempty and all characters are digits. -/
def pyIsDigit (s : String) : Bool :=
  !s.data.isEmpty && s.data.all Char.isDigit

/-- Decimal value of a nonempty all-digit character list. -/
def digitsToNat? (cs : List Char) : Option Nat :=
  if !cs.isEmpty && cs.all Char.isDigit then
    some (cs.foldl (fun acc c => 10 * acc + (c.toNat - 48)) 0)
  else none

/-- Python `int(s)` for a decimal literal with an optional sign and
surrounding whitespace, as `Option`: `none` models the `ValueError`.
(Underscore separators are not modelled; no caller passes them.) -/
def pyInt? (s : String) : Option Int :=
  match (pyTrim s).data with
  | [] => none
  | c :: rest =>
      if c = '-' then (digitsToNat? rest).map (fun n => -(n : Int))
      else if c = '+' then (digitsToNat? rest).map (fun n => (n : Int))
      else (digitsToNat? (c :: rest)).map (fun n => (n : Int))

/-- Substring containment, used to state what an error message carries. -/
def strContains (s t : String) : Prop :=
  ∃ pre post, s = pre ++ (t ++ post)

/-! ## Cron parser and tier validator — `app/utils/cron_validator.py` -/

/-- `FREE_TIER_MIN_INTERVAL = 5 * 60` (cron_validator.py line 16). -/
def FREE_TIER_MIN_INTERVAL : Int := 5 * 60

/-- `PRO_TIER_MIN_INTERVAL = 5` (cron_validator.py line 17). -/
def PRO_TIER_MIN_INTERVAL : Int := 5

/-- `get_account_tier` (cron_validator.py lines 22-34): the account's
subscription row is modelled by its optional `plan_id`; a case-folded plan id
starting with `pro` gives tier `pro`, everything else (no subscription
included) gives `free`. -/
def get_account_tier (planId? : Option String) : String :=
  match planId? with
  | some planId => if pyStartsWith (pyLower planId) "pro" then "pro" else "free"
  | none => "free"

/-- `get_minimum_interval_for_tier` (cron_validator.py lines 37-50). -/
def get_minimum_interval_for_tier (tier : String) : Int :=
  if pyStartsWith (pyLower tier) "pro" then PRO_TIER_MIN_INTERVAL
  else FREE_TIER_MIN_INTERVAL

/-- Consecutive differences `execution_times[i] - execution_times[i-1]`
(cron_validator.py lines 121-124). -/
def consecDiffs : List Int → List Int
  | a :: b :: rest => (b - a) :: consecDiffs (b :: rest)
  | _ => []

/-- Execution-based fallback of `calculate_min_interval_from_cron`
(cron_validator.py lines 95-130).  `futureTimes` is the list of instants the
croniter iterator would yield from the base time (at most 100 in the source);
fewer than two yields 0, otherwise the minimum consecutive gap in whole
seconds. -/
def fallbackMinInterval (futureTimes : List Int) : Int :=
  if futureTimes.length < 2 then 0
  else
    match (consecDiffs futureTimes).min? with
    | some m => m
    | none => 0

/-- `calculate_min_interval_from_cron` (cron_validator.py lines 53-130).
For a 6-field expression the seconds field is inspected first: a `*/N` field
with positive integer `N` returns `N`; a literal digit string returns its
value directly (including 0); anything else falls back to the
execution-based calculation over `futureTimes`. -/
def calculate_min_interval_from_cron (cronExpr : String) (futureTimes : List Int) : Int :=
  let fields := pySplit (pyTrim cronExpr)
  if fields.length = 6 then
    let secondsField := fields.headD ""
    if pyStartsWith secondsField "*/" then
      match pyInt? (strDrop secondsField 2) with
      | some interval =>
          if interval > 0 then interval else fallbackMinInterval futureTimes
      | none => fallbackMinInterval futureTimes
    else if pyIsDigit secondsField then
      match pyInt? secondsField with
      | some v => v
      | none => fallbackMinInterval futureTimes
    else fallbackMinInterval futureTimes
  else fallbackMinInterval futureTimes

/-- Message raised in the degenerate (`actual_min == 0`) branch of
`validate_cron_interval` (cron_validator.py lines 165-169). -/
def degenerateMessage (tier : String) (minRequired timeUntilNext : Int) : String :=
  "Schedule interval too frequent. Minimum interval for " ++
    (tier ++ (" tier is " ++
      (toString minRequired ++ (" seconds (" ++
        (toString (minRequired / 60) ++ (" minutes). Next execution would be in " ++
          (toString timeUntilNext ++ " seconds.")))))))

/-- Body of the `try` block in the degenerate branch of
`validate_cron_interval` (cron_validator.py lines 158-169): rebuild the
croniter, take the first future fire, and raise when it lies strictly within
the tier floor of the base time.  An empty `futureTimes` models croniter
failing to produce a next fire (its exception is also caught by the caller's
`except`). -/
def degenerate_first_fire_check (tier : String) (minRequired : Int)
    (futureTimes : List Int) (baseTime : Int) : Except String Unit :=
  match futureTimes with
  | [] => Except.error "croniter could not produce a next execution"
  | nextRun :: _ =>
      let timeUntilNext := nextRun - baseTime
      if 0 < timeUntilNext ∧ timeUntilNext < minRequired then
        Except.error (degenerateMessage tier minRequired timeUntilNext)
      else
        Except.ok ()

/-- Message raised in the non-degenerate rejection branch of
`validate_cron_interval` (cron_validator.py lines 175-189). -/
def tooFrequentMessage (tier : String) (minRequired actualMin : Int) : String :=
  let tierName := if tier = "free" then "free" else "pro"
  let minMinutes := minRequired / 60
  let intervalStr :=
    if minRequired ≥ 60 then
      toString minMinutes ++ (" minute" ++ (if minMinutes > 1 then "s" else ""))
    else
      toString minRequired ++ (" second" ++ (if minRequired > 1 then "s" else ""))
  "Schedule interval too frequent for " ++
    (tierName ++ (" tier. Minimum interval is " ++
      (intervalStr ++ (". Your schedule has a minimum interval of " ++
        (toString actualMin ++ " seconds.")))))

/-- `validate_cron_interval` (cron_validator.py lines 133-189).  `Except.ok`
is a normal return, `Except.error` is the raised `ValueError`.  In the
degenerate branch the source wraps the whole check, including its own
`raise ValueError`, in `try: ... except Exception: pass` (lines 158-171), so
whatever `degenerate_first_fire_check` produces, the function returns
normally.  The invalid-expression path (croniter construction failing inside
`calculate_min_interval_from_cron`, re-raised at lines 150-153) is outside
this embedding: `futureTimes` presupposes a parsable expression. -/
def validate_cron_interval (planId? : Option String) (cronExpr : String)
    (futureTimes : List Int) (baseTime : Int) : Except String Unit :=
  let tier := get_account_tier planId?
  let minRequired := get_minimum_interval_for_tier tier
  let actualMin := calculate_min_interval_from_cron cronExpr futureTimes
  if actualMin = 0 then
    match degenerate_first_fire_check tier minRequired futureTimes baseTime with
    | _ => Except.ok ()
  else if actualMin < minRequired then
    Except.error (tooFrequentMessage tier minRequired actualMin)
  else
    Except.ok ()

/-! ## Claims about the cron tier validator -/

/-- C5: for every cron expression whose computed minimum interval is nonzero
and below the tier floor (300 s for free, 5 s for pro),
`validate_cron_interval` raises a validation error whose message names the
tier. -/
theorem C5_validate_rejects_below_tier_floor (planId? : Option String)
    (cronExpr : String) (futureTimes : List Int) (baseTime : Int)
    (hnz : calculate_min_interval_from_cron cronExpr futureTimes ≠ 0)
    (hlt : calculate_min_interval_from_cron cronExpr futureTimes <
      get_minimum_interval_for_tier (get_account_tier planId?)) :
    validate_cron_interval planId? cronExpr futureTimes baseTime =
      Except.error (tooFrequentMessage (get_account_tier planId?)
        (get_minimum_interval_for_tier (get_account_tier planId?))
        (calculate_min_interval_from_cron cronExpr futureTimes)) ∧
    strContains
      (tooFrequentMessage (get_account_tier planId?)
        (get_minimum_interval_for_tier (get_account_tier planId?))
        (calculate_min_interval_from_cron cronExpr futureTimes))
      (if get_account_tier planId? = "free" then "free" else "pro") := by
  constructor
  · show validate_cron_interval planId? cronExpr futureTimes baseTime = _
    unfold validate_cron_interval
    simp only [if_neg hnz, if_pos hlt]
  · exact ⟨"Schedule interval too frequent for ", _, rfl⟩

/-- Witness for C5 at the spec scenario S1: cron every 30 seconds on the free
tier is rejected with a message containing "5 minutes". -/
theorem C5_validate_rejects_below_tier_floor_witness :
    validate_cron_interval none "*/30 * * * * *" [] 0 =
      Except.error ("Schedule interval too frequent for free tier. " ++
        ("Minimum interval is 5 minutes. " ++
          "Your schedule has a minimum interval of 30 seconds.")) ∧
    strContains
      ("Schedule interval too frequent for free tier. " ++
        ("Minimum interval is 5 minutes. " ++
          "Your schedule has a minimum interval of 30 seconds."))
      "5 minutes" := by
  have h := C5_validate_rejects_below_tier_floor none "*/30 * * * * *" [] 0
    (by decide) (by decide)
  refine ⟨h.1.trans (congrArg Except.error (by decide)), ?_⟩
  exact ⟨"Schedule interval too frequent for free tier. Minimum interval is ",
    ". Your schedule has a minimum interval of 30 seconds.", by decide⟩

/-- C2 (code bug): on the free tier with the degenerate cron
`0 * * * * *` (minimum interval computed as 0 by the literal-seconds fast
path) whose first fire, 60 s after the base time, lies within the 300 s tier
floor, the inner first-fire check does raise the rejection — but
`validate_cron_interval` still returns without error, because the source wraps
the raise in `try: ... except Exception: pass` (cron_validator.py lines
158-171), swallowing its own `ValueError`. -/
theorem C2_degenerate_rejection_swallowed :
    calculate_min_interval_from_cron "0 * * * * *" [60, 120] = 0 ∧
    degenerate_first_fire_check "free" 300 [60, 120] 0 =
      Except.error (degenerateMessage "free" 300 60) ∧
    validate_cron_interval none "0 * * * * *" [60, 120] 0 = Except.ok () := by
  exact ⟨rfl, rfl, rfl⟩

/-- C10: for every 6-field cron expression whose seconds field is the literal
digit string "0", `calculate_min_interval_from_cron` returns 0 via the
literal-integer fast path, and `validate_cron_interval` therefore takes the
degenerate once-only branch (which, the fast path having forced
`actual_min = 0`, returns without ever comparing the schedule's true cadence
against the tier floor). -/
theorem C10_literal_zero_seconds_takes_degenerate_branch (cronExpr : String)
    (rest : List String) (futureTimes : List Int) (planId? : Option String)
    (baseTime : Int)
    (hfields : pySplit (pyTrim cronExpr) = "0" :: rest)
    (hlen : rest.length = 5) :
    calculate_min_interval_from_cron cronExpr futureTimes = 0 ∧
    validate_cron_interval planId? cronExpr futureTimes baseTime =
      Except.ok () := by
  have hcalc : calculate_min_interval_from_cron cronExpr futureTimes = 0 := by
    unfold calculate_min_interval_from_cron
    rw [hfields]
    have h6 : ("0" :: rest).length = 6 := by simp [hlen]
    rw [if_pos h6]
    rfl
  refine ⟨hcalc, ?_⟩
  unfold validate_cron_interval
  rw [hcalc]
  simp

/-- Witness for C10 at cron `0 * * * * *` (fires every 60 s): the fast path
reports 0 and validation accepts, while the execution-based calculation on
the same future fire times would have reported the true 60-second cadence. -/
theorem C10_literal_zero_seconds_takes_degenerate_branch_witness :
    calculate_min_interval_from_cron "0 * * * * *" [60, 120, 180] = 0 ∧
    validate_cron_interval none "0 * * * * *" [60, 120, 180] 0 =
      Except.ok () ∧
    fallbackMinInterval [60, 120, 180] = 60 := by
  have h := C10_literal_zero_seconds_takes_degenerate_branch "0 * * * * *"
    ["*", "*", "*", "*", "*"] [60, 120, 180] none 0 (by decide) (by decide)
  exact ⟨h.1, h.2, by decide⟩

/-! ## Rate limiter — `app/services/rate_limiter_service.py`

`check_rate_limit` reads three external values: whether the Redis client was
constructed (`redis_client is not None`), the plan id `get_plan_for_webhook`
resolves for the webhook's account (that helper catches its own exceptions
and returns `None`, so it never raises), and the Redis counter read.  The
counter read is `Except`: the error covers both an unreachable store and an
unparsable stored value, either of which lands in the `except` clause. -/

/-- `RATE_LIMITS = \x7b"free": 100, "pro": 10\x7d` (rate_limiter_service.py
lines 25-28), looked up with default `RATE_LIMITS["free"]`. -/
def RATE_LIMITS (planType : String) : Nat :=
  if planType = "pro" then 10 else 100

/-- `RateLimiterService._get_plan_type` (rate_limiter_service.py lines
62-78): empty/absent plan ids and anything whose case-folded form does not
start with `pro` are `free`. -/
def _get_plan_type (planId : String) : String :=
  if planId = "" then "free"
  else if pyStartsWith (pyLower planId) "pro" then "pro"
  else "free"

/-- `RateLimiterService._get_rate_limit` (rate_limiter_service.py lines
80-91): `plan_id or "free"` then the limit table. -/
def _get_rate_limit (planId? : Option String) : Nat :=
  RATE_LIMITS (_get_plan_type (planId?.getD "free"))

/-- `RateLimiterService.check_rate_limit` (rate_limiter_service.py lines
192-243) → `(is_allowed, current_count, limit)`.  No Redis client, a failed
read, or an unparsable counter value all fail open with the sentinel limit
`RATE_LIMITS["pro"]`; otherwise the webhook is allowed exactly when the
counter is below the tier limit.  The function is total: it never raises. -/
def check_rate_limit (redisAvailable : Bool) (planId? : Option String)
    (storeRead : Except Unit (Option Nat)) : Bool × Nat × Nat :=
  if !redisAvailable then (true, 0, RATE_LIMITS "pro")
  else
    match storeRead with
    | Except.error _ => (true, 0, RATE_LIMITS "pro")
    | Except.ok count? =>
        let limit := _get_rate_limit planId?
        let currentCount := count?.getD 0
        if currentCount ≥ limit then (false, currentCount, limit)
        else (true, currentCount, limit)

/-- C8: `check_rate_limit` never throws (it is a total function of the three
external reads); store unreachable / read errors fail open with the sentinel
limit; otherwise the limit comes from the account's tier — case-folded
plan-id prefix `pro` gives 10, everything else 100 — and the execution is
allowed exactly when the current count is below that limit. -/
theorem C8_check_rate_limit_contract (planId? : Option String)
    (count? : Option Nat) :
    (∀ storeRead, check_rate_limit false planId? storeRead =
      (true, 0, RATE_LIMITS "pro")) ∧
    check_rate_limit true planId? (Except.error ()) =
      (true, 0, RATE_LIMITS "pro") ∧
    (check_rate_limit true planId? (Except.ok count?)).2.2 =
      _get_rate_limit planId? ∧
    ((check_rate_limit true planId? (Except.ok count?)).1 = true ↔
      count?.getD 0 < _get_rate_limit planId?) ∧
    _get_rate_limit planId? =
      (if pyStartsWith (pyLower (planId?.getD "free")) "pro" then 10
       else 100) := by
  refine ⟨fun storeRead => rfl, rfl, ?_, ?_, ?_⟩
  · unfold check_rate_limit
    by_cases h : _get_rate_limit planId? ≤ count?.getD 0 <;>
      · simp [ge_iff_le, h]
  · unfold check_rate_limit
    by_cases h : _get_rate_limit planId? ≤ count?.getD 0
    all_goals simp [ge_iff_le, h]
    all_goals omega
  · rcases planId? with _ | p
    · decide
    · by_cases hp : p = ""
      · subst hp
        decide
      · by_cases hs : pyStartsWith (pyLower p) "pro" <;>
          simp [_get_rate_limit, _get_plan_type, RATE_LIMITS, hp, hs]

/-! ## Execution worker — `app/tasks/execute_job.py`

The worker runs against: the execution rows of its job, the job row's
presence/enabled flags, the webhook row's presence, the broker queue it
enqueues retries onto, and the Redis rate-limit counter of the webhook.  The
outbound HTTP call is a parameter (`HttpResult`): the body text on a 2xx/3xx
response, a timeout, or any other exception (4xx/5xx raised by
`raise_for_status`, network errors).  Row ids come from a counter standing in
for uuid4. -/

/-- Outcome of `_execute_webhook` as the `try` in `execute_job` sees it. -/
inductive HttpResult where
  | ok (body : String)
  | timeout
  | failed (msg : String)
deriving Repr, DecidableEq

/-- One `JobExecution` row, the fields `execute_job` touches. -/
structure ExecRow where
  id : Nat
  jobId : Nat
  status : String
  attempt : Nat
  workerId : Option String := none
  durationMs : Option Nat := none
  responseBody : Option String := none
  errorMsg : Option String := none
  startedAt : Option Int := none
  finishedAt : Option Int := none
deriving Repr, DecidableEq

/-- Database and broker state the worker reads and writes. -/
structure WorkerDb where
  executions : List ExecRow
  jobPresent : Bool
  jobEnabled : Bool
  webhookPresent : Bool
  nextRowId : Nat
  queue : List (Nat × Int)
  rateLimitCounter : Nat
deriving Repr, DecidableEq

/-- `DEFAULT_RETRY_POLICY` (execute_job.py lines 29-33). -/
structure RetryPolicy where
  max_attempts : Nat
  backoff_seconds : Nat
  backoff_type : String
deriving Repr, DecidableEq

/-- The module-level default: 3 attempts, 60 s base, exponential. -/
def DEFAULT_RETRY_POLICY : RetryPolicy :=
  { max_attempts := 3, backoff_seconds := 60, backoff_type := "exponential" }

/-- `_calculate_backoff` (execute_job.py lines 200-219). -/
def _calculate_backoff (attempt : Nat) (retryPolicy : RetryPolicy) : Nat :=
  if retryPolicy.backoff_type = "exponential" then
    retryPolicy.backoff_seconds * 2 ^ (attempt - 1)
  else if retryPolicy.backoff_type = "linear" then
    retryPolicy.backoff_seconds * attempt
  else
    retryPolicy.backoff_seconds

/-- `_update_execution_status_in_db` (execute_job.py lines 271-295): find the
row by id and set the provided fields; Python truthiness guards the string
fields (`if worker_id:` etc.) while `duration_ms` is compared to `None`;
`started_at`/`finished_at` follow the status. -/
def _update_execution_status_in_db (rows : List ExecRow) (executionId : Nat)
    (status : String) (workerId : Option String) (durationMs : Option Nat)
    (response : Option String) (errorMsg : Option String) (now : Int) :
    List ExecRow :=
  rows.map fun r =>
    if r.id = executionId then
      { r with
        status := status
        workerId := (match workerId with
          | some w => if w ≠ "" then some w else r.workerId
          | none => r.workerId)
        durationMs := (match durationMs with
          | some d => some d
          | none => r.durationMs)
        responseBody := (match response with
          | some b => if b ≠ "" then some b else r.responseBody
          | none => r.responseBody)
        errorMsg := (match errorMsg with
          | some e => if e ≠ "" then some e else r.errorMsg
          | none => r.errorMsg)
        startedAt := (if status = "running" then some now else r.startedAt)
        finishedAt := (if status = "success" ∨ status = "failure" ∨
            status = "dead_letter" ∨ status = "timed_out" then some now
          else r.finishedAt) }
    else r

/-- `_handle_execution_failure` (execute_job.py lines 138-197): at
`attempt ≥ max_attempts` the row goes to `dead_letter` and nothing is
enqueued; below it the row is marked `failure`, a fresh `queued` row with
`attempt + 1` is inserted, and the broker receives it with
`eta = now + backoff`. -/
def _handle_execution_failure (db : WorkerDb) (execution : ExecRow)
    (errorMsg : String) (durationMs : Nat) (now : Int) : WorkerDb :=
  let retryPolicy := DEFAULT_RETRY_POLICY
  let maxAttempts := retryPolicy.max_attempts
  if execution.attempt ≥ maxAttempts then
    { db with executions := (_update_execution_status_in_db db.executions
        execution.id "dead_letter" none (some durationMs) none
        (some ((("Max attempts (" ++ toString maxAttempts) ++
          ") exceeded. Last error: ") ++ errorMsg)) now) }
  else
    let backoffSeconds := _calculate_backoff execution.attempt retryPolicy
    let retryAt := now + (backoffSeconds : Int)
    let updatedRows := _update_execution_status_in_db db.executions
      execution.id "failure" none (some durationMs) none (some errorMsg) now
    let newExecution : ExecRow :=
      { id := db.nextRowId, jobId := execution.jobId, status := "queued",
        attempt := execution.attempt + 1 }
    { db with executions := updatedRows ++ [newExecution],
              nextRowId := db.nextRowId + 1,
              queue := db.queue ++ [(newExecution.id, retryAt)] }

/-- `execute_job` (execute_job.py lines 55-135).  Load the execution; bail
silently when missing; mark `failure` when the job is missing/disabled or the
webhook is missing; otherwise mark `running` and perform the HTTP call, then
mark `success` or hand the error to `_handle_execution_failure`.  The Redis
rate-limit counter in the state is never consulted: the source contains no
call to `check_rate_limit`. -/
def execute_job (db : WorkerDb) (executionId : Nat) (httpResult : HttpResult)
    (durationMs : Nat) (now : Int) (workerId : String) : WorkerDb :=
  match db.executions.find? (fun r => r.id = executionId) with
  | none => db
  | some execution =>
      if !db.jobPresent then
        { db with executions := (_update_execution_status_in_db db.executions
            executionId "failure" none none none (some "Job not found") now) }
      else if !db.jobEnabled then
        { db with executions := (_update_execution_status_in_db db.executions
            executionId "failure" none none none (some "Job is disabled") now) }
      else if !db.webhookPresent then
        { db with executions := (_update_execution_status_in_db db.executions
            executionId "failure" none none none (some "Webhook not found") now) }
      else
        let dbRunning := { db with
          executions := (_update_execution_status_in_db db.executions
            executionId "running" (some workerId) none none none now) }
        match httpResult with
        | HttpResult.ok body =>
            { dbRunning with
              executions := (_update_execution_status_in_db dbRunning.executions
                executionId "success" (some workerId) (some durationMs)
                (some body) none now) }
        | HttpResult.timeout =>
            _handle_execution_failure dbRunning execution "Request timed out"
              durationMs now
        | HttpResult.failed msg =>
            _handle_execution_failure dbRunning execution msg durationMs now

/-- Broker consumption loop: deliver queued executions to `execute_job` one at
a time until the queue is empty (or fuel runs out), asking the HTTP oracle for
each execution's outcome.  Models the retry chain one scheduled fire
produces. -/
def drainQueue : Nat → WorkerDb → (Nat → HttpResult) → WorkerDb
  | 0, db, _ => db
  | Nat.succ fuel, db, oracle =>
      match db.queue with
      | [] => db
      | (executionId, _eta) :: restQueue =>
          drainQueue fuel
            (execute_job { db with queue := restQueue } executionId
              (oracle executionId) 10 0 "worker-1")
            oracle

/-- State just after the scheduler fired once: one queued execution with
attempt 1, enabled job, webhook present. -/
def initialFireDb : WorkerDb :=
  { executions := [{ id := 1, jobId := 7, status := "queued", attempt := 1 }],
    jobPresent := true, jobEnabled := true, webhookPresent := true,
    nextRowId := 2, queue := [(1, 0)], rateLimitCounter := 0 }

/-- State of a free-tier webhook's job whose Redis day-counter already reads
100 — the 101st execution of the rolling window is the queued row. -/
def rateLimitedDb : WorkerDb :=
  { executions := [{ id := 1, jobId := 7, status := "queued", attempt := 1 }],
    jobPresent := true, jobEnabled := true, webhookPresent := true,
    nextRowId := 2, queue := [], rateLimitCounter := 100 }

/-- C1 (code bug): `check_rate_limit` does report the 101st free-tier
execution as disallowed (100 ≥ limit 100), but `execute_job` never consults
it — on the very state whose counter stands at 100 the worker performs the
HTTP call and marks the execution `success`; no execution is ever marked with
reason "rate limit exceeded". -/
theorem C1_worker_never_consults_rate_limiter :
    check_rate_limit true (some "free_plan")
      (Except.ok (some rateLimitedDb.rateLimitCounter)) = (false, 100, 100) ∧
    (execute_job rateLimitedDb 1 (HttpResult.ok "pong") 12 0 "w1").executions =
      [{ id := 1, jobId := 7, status := "success", attempt := 1,
         workerId := some "w1", durationMs := some 12,
         responseBody := some "pong", errorMsg := none,
         startedAt := some 0, finishedAt := some 0 }] ∧
    ((execute_job rateLimitedDb 1 (HttpResult.ok "pong") 12 0 "w1").executions.all
      fun r => !(r.errorMsg == some "rate limit exceeded")) = true ∧
    (∀ counter : Nat,
      (execute_job { rateLimitedDb with rateLimitCounter := counter } 1
          (HttpResult.ok "pong") 12 0 "w1").executions =
        (execute_job rateLimitedDb 1 (HttpResult.ok "pong") 12 0 "w1").executions) := by
  refine ⟨by decide, by decide, by decide, fun counter => by rfl⟩

/-- C4: a failed execution with attempt < 3 is marked `failure` and respawned
as a fresh `queued` row with attempt + 1, enqueued at
`eta = now + 60 * 2^(attempt-1)`; at attempt = 3 the row is marked
`dead_letter` with the "Max attempts (3) exceeded" message and nothing is
enqueued; consequently the chain one scheduled fire produces (each delivered
execution's HTTP outcome arbitrary) holds at most 3 rows and ends in
`success` or `dead_letter`. -/
theorem C4_retry_backoff_and_chain_bound :
    (∀ (db : WorkerDb) (execution : ExecRow) (errorMsg : String)
        (durationMs : Nat) (now : Int),
      (execution.attempt < 3 →
        (_handle_execution_failure db execution errorMsg durationMs now).executions =
          _update_execution_status_in_db db.executions execution.id "failure"
            none (some durationMs) none (some errorMsg) now ++
          [{ id := db.nextRowId, jobId := execution.jobId, status := "queued",
             attempt := execution.attempt + 1 }] ∧
        (_handle_execution_failure db execution errorMsg durationMs now).queue =
          db.queue ++ [(db.nextRowId,
            now + ((60 * 2 ^ (execution.attempt - 1) : Nat) : Int))]) ∧
      (execution.attempt = 3 →
        (_handle_execution_failure db execution errorMsg durationMs now).executions =
          _update_execution_status_in_db db.executions execution.id
            "dead_letter" none (some durationMs) none
            (some ("Max attempts (3) exceeded. Last error: " ++ errorMsg)) now ∧
        (_handle_execution_failure db execution errorMsg durationMs now).queue =
          db.queue)) ∧
    (∀ r1 r2 r3 : HttpResult,
      (drainQueue 4 initialFireDb
          (fun i => if i = 1 then r1 else if i = 2 then r2 else r3)).executions.length ≤ 3 ∧
      ((drainQueue 4 initialFireDb
          (fun i => if i = 1 then r1 else if i = 2 then r2 else r3)).executions.getLast?.map
            (fun r => r.status) = some "success" ∨
       (drainQueue 4 initialFireDb
          (fun i => if i = 1 then r1 else if i = 2 then r2 else r3)).executions.getLast?.map
            (fun r => r.status) = some "dead_letter")) := by
  constructor
  · intro db execution errorMsg durationMs now
    constructor
    · intro h
      have hlt : ¬ execution.attempt ≥ DEFAULT_RETRY_POLICY.max_attempts := by
        simp only [DEFAULT_RETRY_POLICY]
        omega
      simp only [_handle_execution_failure]
      rw [if_neg hlt]
      exact ⟨rfl, rfl⟩
    · intro h
      have hge : execution.attempt ≥ DEFAULT_RETRY_POLICY.max_attempts := by
        simp only [DEFAULT_RETRY_POLICY]
        omega
      simp only [_handle_execution_failure]
      rw [if_pos hge]
      exact ⟨rfl, rfl⟩
  · intro r1 r2 r3
    rcases r1 with b1 | _ | m1 <;> rcases r2 with b2 | _ | m2 <;>
      rcases r3 with b3 | _ | m3 <;>
      exact ⟨by first
          | exact (by decide : (1 : Nat) ≤ 3)
          | exact (by decide : (2 : Nat) ≤ 3)
          | exact (by decide : (3 : Nat) ≤ 3),
        by first | exact Or.inl rfl | exact Or.inr rfl⟩

/-! ## Scheduler poller — `app/services/scheduler_service.py` -/

/-- Modelled from the spec: `app/utils/cron_utils.py` (`create_croniter`),
which `SchedulerService._try_claim_and_enqueue` imports for the next-fire
computation, is not among the repository's source files.  Spec 4.A defines
`nextFireAfter(cron, tz, t)` as the smallest instant strictly greater than
`t` that matches the expression in the given timezone, truncated to whole
seconds.  The cron expression plus timezone are modelled by their set of
matching instants `fires`; the search is bounded by `fuel`, with `none`
standing for the iterator failing to produce a next fire. -/
def nextFireAfter (fires : Nat → Bool) (fuel : Nat) (t : Nat) : Option Nat :=
  match fuel with
  | 0 => none
  | Nat.succ fuel =>
      if fires (t + 1) then some (t + 1) else nextFireAfter fires fuel (t + 1)

/-- A successful bounded search yields a matching instant strictly greater
than the base instant. -/
theorem nextFireAfter_some (fires : Nat → Bool) :
    ∀ (fuel t n : Nat), nextFireAfter fires fuel t = some n →
      t < n ∧ fires n = true := by
  intro fuel
  induction fuel with
  | zero => intro t n h; exact absurd h (by simp [nextFireAfter])
  | succ fuel ih =>
      intro t n h
      unfold nextFireAfter at h
      by_cases hm : fires (t + 1) = true
      · rw [if_pos hm] at h
        obtain rfl : t + 1 = n := by injection h
        exact ⟨Nat.lt_succ_self t, hm⟩
      · rw [if_neg hm] at h
        obtain ⟨hlt, hmt⟩ := ih (t + 1) n h
        exact ⟨Nat.lt_of_succ_lt hlt, hmt⟩

/-- The job row as `_try_claim_and_enqueue` sees it after the reload of step
2: its `schedule` column is modelled by the set of instants the cron
expression matches. -/
structure PJob where
  id : Nat
  enabled : Bool
  schedule : Nat → Bool
  next_run_at : Option Nat
  last_run_at : Option Nat

/-- Steps of the critical section, in the order the source performs them. -/
inductive PollerEvent where
  | lockAcquired
  | executionInserted (executionId : Nat)
  | jobUpdateCommitted (lastRun nextRun : Nat)
  | brokerEnqueued (executionId : Nat)
  | lockReleased
deriving Repr, DecidableEq

/-- The double-check of scheduler_service.py line 265:
`not job.enabled or (job.next_run_at and job.next_run_at > datetime.utcnow())`. -/
def jobNoLongerDue (reloaded : PJob) (checkNow : Nat) : Bool :=
  !reloaded.enabled ||
    (match reloaded.next_run_at with
     | some nr => decide (checkNow < nr)
     | none => false)

/-- `SchedulerService._try_claim_and_enqueue` (scheduler_service.py lines
233-308) → (claimed?, job row afterwards, committed events in order).  The
lock outcome is `lockOk`; `checkNow` is the `utcnow()` of the double-check
(line 265) and `fireNow` the `utcnow()` captured for the fire (line 283);
`executionId` stands for the generated uuid.  A failing next-fire computation
lands in the `except` branch: the session is rolled back (the execution
insert was already committed on line 277) and `False` is returned; otherwise
the job update is committed (line 288) before the broker enqueue (line 292). -/
def _try_claim_and_enqueue (reloaded : PJob) (lockOk : Bool) (fuel : Nat)
    (checkNow fireNow : Nat) (executionId : Nat) :
    Bool × PJob × List PollerEvent :=
  if !lockOk then (false, reloaded, [])
  else if jobNoLongerDue reloaded checkNow then
    (false, reloaded, [PollerEvent.lockAcquired, PollerEvent.lockReleased])
  else
    match nextFireAfter reloaded.schedule fuel fireNow with
    | none =>
        (false, reloaded,
         [PollerEvent.lockAcquired, PollerEvent.executionInserted executionId,
          PollerEvent.lockReleased])
    | some nextRun =>
        (true,
         { reloaded with next_run_at := some nextRun,
                         last_run_at := some fireNow },
         [PollerEvent.lockAcquired, PollerEvent.executionInserted executionId,
          PollerEvent.jobUpdateCommitted fireNow nextRun,
          PollerEvent.brokerEnqueued executionId, PollerEvent.lockReleased])

/-- Recognizer for the job-update commit event. -/
def isJobUpdateCommitted : PollerEvent → Bool
  | PollerEvent.jobUpdateCommitted _ _ => true
  | _ => false

/-- Recognizer for the broker enqueue event. -/
def isBrokerEnqueued : PollerEvent → Bool
  | PollerEvent.brokerEnqueued _ => true
  | _ => false

/-- C3: a successful claim at wall time `fireNow` sets
`last_run_at = fireNow` and `next_run_at = nextFireAfter(schedule, fireNow)`,
which is strictly greater than `fireNow` and matches the schedule; and in the
committed order of the critical section the job update strictly precedes the
broker enqueue, so a crash between them loses the fire rather than
duplicating it. -/
theorem C3_claim_advances_job_and_commits_before_enqueue (reloaded : PJob)
    (fuel : Nat) (checkNow fireNow : Nat) (executionId : Nat) (nextRun : Nat)
    (hdue : jobNoLongerDue reloaded checkNow = false)
    (hnext : nextFireAfter reloaded.schedule fuel fireNow = some nextRun) :
    _try_claim_and_enqueue reloaded true fuel checkNow fireNow executionId =
      (true,
       { reloaded with next_run_at := some nextRun,
                       last_run_at := some fireNow },
       [PollerEvent.lockAcquired, PollerEvent.executionInserted executionId,
        PollerEvent.jobUpdateCommitted fireNow nextRun,
        PollerEvent.brokerEnqueued executionId, PollerEvent.lockReleased]) ∧
    fireNow < nextRun ∧
    reloaded.schedule nextRun = true ∧
    List.findIdx isJobUpdateCommitted
        (_try_claim_and_enqueue reloaded true fuel checkNow fireNow
          executionId).2.2 <
      List.findIdx isBrokerEnqueued
        (_try_claim_and_enqueue reloaded true fuel checkNow fireNow
          executionId).2.2 := by
  have hout : _try_claim_and_enqueue reloaded true fuel checkNow fireNow
      executionId =
      (true,
       { reloaded with next_run_at := some nextRun,
                       last_run_at := some fireNow },
       [PollerEvent.lockAcquired, PollerEvent.executionInserted executionId,
        PollerEvent.jobUpdateCommitted fireNow nextRun,
        PollerEvent.brokerEnqueued executionId, PollerEvent.lockReleased]) := by
    unfold _try_claim_and_enqueue
    rw [hdue, hnext]
    rfl
  obtain ⟨hgt, hmatch⟩ := nextFireAfter_some reloaded.schedule fuel fireNow
    nextRun hnext
  refine ⟨hout, hgt, hmatch, ?_⟩
  rw [hout]
  simp [List.findIdx_cons, isJobUpdateCommitted, isBrokerEnqueued]

/-- A job firing each full minute, due at `next_run_at = 30 = checkNow`,
claimed at wall time 30: the row advances to `last_run_at = 30`,
`next_run_at = 60 > 30`, with the update committed before the enqueue. -/
def cronJobExample : PJob :=
  { id := 1, enabled := true, schedule := fun s => s % 60 == 0,
    next_run_at := some 30, last_run_at := none }

/-- Witness for C3 on `cronJobExample`. -/
theorem C3_claim_advances_job_and_commits_before_enqueue_witness :
    _try_claim_and_enqueue cronJobExample true 100 30 30 9 =
      (true,
       { cronJobExample with next_run_at := some 60, last_run_at := some 30 },
       [PollerEvent.lockAcquired, PollerEvent.executionInserted 9,
        PollerEvent.jobUpdateCommitted 30 60, PollerEvent.brokerEnqueued 9,
        PollerEvent.lockReleased]) ∧
    (30 : Nat) < 60 := by
  have h := C3_claim_advances_job_and_commits_before_enqueue cronJobExample
    100 30 30 9 60 (by rfl) (by rfl)
  exact ⟨h.1, h.2.1⟩

/-! ## Load-run engine — `app/services/load_test_service.py` and
`app/services/webhook_service.py`

Python's `sorted` / `list.sort` and the SQL `ORDER BY` are modelled by
`List.insertionSort`, a stable ascending sort — extensionally the sort the
source performs. -/

/-- A collection webhook, the columns the load run uses. -/
structure LWebhook where
  id : Nat
  order : Option Int
  url : String
deriving Repr, DecidableEq

/-- `ORDER BY webhooks.order ASC NULLS LAST` on the `order` column. -/
def nullsLastLeB (a b : Option Int) : Bool :=
  match a, b with
  | some x, some y => decide (x ≤ y)
  | some _, none => true
  | none, some _ => false
  | none, none => true

/-- Row order of `WebhookService.get_webhooks_by_collection`
(webhook_service.py lines 105-120). -/
def webhookOrderLe (a b : LWebhook) : Prop :=
  nullsLastLeB a.order b.order = true

instance : DecidableRel webhookOrderLe :=
  fun a b => instDecidableEqBool (nullsLastLeB a.order b.order) true

/-- `WebhookService.get_webhooks_by_collection` (webhook_service.py lines
105-120): the collection's webhooks ordered by `order ASC NULLS LAST`. -/
def get_webhooks_by_collection (ws : List LWebhook) : List LWebhook :=
  List.insertionSort webhookOrderLe ws

/-- An entry of `endpoints_to_test` (load_test_service.py lines 331-339),
with the fields the iteration order depends on. -/
structure Endpoint where
  url : String
  order : Int
deriving Repr, DecidableEq

/-- Sort key of `endpoints_to_test.sort(key=lambda x: x.get("order", 0))`. -/
def endpointLe (a b : Endpoint) : Prop :=
  a.order ≤ b.order

instance : DecidableRel endpointLe :=
  fun a b => Int.decLe a.order b.order

instance : IsTotal Endpoint endpointLe :=
  ⟨fun a b => Int.le_total a.order b.order⟩

instance : IsTrans Endpoint endpointLe :=
  ⟨fun _ _ _ hab hbc => le_trans hab hbc⟩

/-- Endpoint-list construction of `LoadTestService.run_load_test`
(load_test_service.py lines 311-342): take the collection's webhooks in SQL
order, build endpoint dicts with `"order": webhook.order or 0` (both `None`
and 0 become 0), then `sort(key=lambda x: x.get("order", 0))`. -/
def run_load_test_endpoints (ws : List LWebhook) : List Endpoint :=
  let webhooks := get_webhooks_by_collection ws
  let endpointsToTest := webhooks.map fun w =>
    { url := w.url, order := w.order.getD 0 : Endpoint }
  List.insertionSort endpointLe endpointsToTest

/-- The list the claim describes: the collection's webhooks sorted by
execution order ascending with null/unset order treated as infinity and
sorted last, then turned into endpoints. -/
def specNullsLastEndpoints (ws : List LWebhook) : List Endpoint :=
  (List.insertionSort webhookOrderLe ws).map fun w =>
    { url := w.url, order := w.order.getD 0 }

/-- Counterexample to C6: a webhook with order 1 and one with null order.
The claim puts the null-order webhook last; the code maps its order to 0 and
re-sorts, so it comes first. -/
theorem C6_null_order_sorts_first_counterexample :
    run_load_test_endpoints
        [{ id := 1, order := some 1, url := "a" },
         { id := 2, order := none, url := "b" }] =
      [{ url := "b", order := 0 }, { url := "a", order := 1 }] ∧
    specNullsLastEndpoints
        [{ id := 1, order := some 1, url := "a" },
         { id := 2, order := none, url := "b" }] =
      [{ url := "a", order := 1 }, { url := "b", order := 0 }] ∧
    run_load_test_endpoints
        [{ id := 1, order := some 1, url := "a" },
         { id := 2, order := none, url := "b" }] ≠
      specNullsLastEndpoints
        [{ id := 1, order := some 1, url := "a" },
         { id := 2, order := none, url := "b" }] := by
  decide

/-- C6 (amended): the endpoint list each virtual user iterates is a
permutation of the collection's webhook endpoints, sorted ascending by
`order or 0` — a null/unset order is treated as 0 and so sorts first, not
last. -/
theorem C6_endpoints_sorted_by_order_nulls_as_zero (ws : List LWebhook) :
    (run_load_test_endpoints ws).Perm
      (ws.map fun w => { url := w.url, order := w.order.getD 0 }) ∧
    List.Sorted endpointLe (run_load_test_endpoints ws) := by
  constructor
  · unfold run_load_test_endpoints get_webhooks_by_collection
    exact (List.perm_insertionSort endpointLe _).trans
      ((List.perm_insertionSort webhookOrderLe ws).map _)
  · exact List.sorted_insertionSort endpointLe _

/-- One `LoadTestResult` sample as the aggregation reads it. -/
structure LTResult where
  responseTimeMs : Nat
  isSuccess : Bool
deriving Repr, DecidableEq

/-- A `LoadTestReport` row.  `none` is SQL `NULL`. -/
structure LTReport where
  totalRequests : Nat
  successfulRequests : Nat
  failedRequests : Nat
  avgResponseTimeMs : Option Nat
  minResponseTimeMs : Option Nat
  maxResponseTimeMs : Option Nat
  p95ResponseTimeMs : Option Nat
  p99ResponseTimeMs : Option Nat
deriving Repr, DecidableEq

/-- The report as created before the run (load_test_service.py lines
344-353): zero counters, null statistics. -/
def emptyReport : LTReport :=
  { totalRequests := 0, successfulRequests := 0, failedRequests := 0,
    avgResponseTimeMs := none, minResponseTimeMs := none,
    maxResponseTimeMs := none, p95ResponseTimeMs := none,
    p99ResponseTimeMs := none }

/-- Statistics step of `LoadTestService.run_load_test` (load_test_service.py
lines 364-381): `response_times` keeps only samples with
`response_time_ms > 0`; the whole update, counters included, runs only
`if response_times:`; `avg` is `int(statistics.mean(..))` — the exact
rational mean truncated, i.e. `sum / count` in natural-number division;
`p95`/`p99` are taken from the sorted positive times at index
`int(len * 0.95)` / `int(len * 0.99)` (the float product modelled exactly as
`len * 95 / 100` and `len * 99 / 100`, which for `len ≥ 20` are always in
range, so the `getD` default is never used) and only when at least 20
positive times exist. -/
def updateReportMetrics (results : List LTResult) : LTReport :=
  let responseTimes :=
    (results.filter fun r => 0 < r.responseTimeMs).map fun r => r.responseTimeMs
  let successfulResults := results.filter fun r => r.isSuccess
  if responseTimes.isEmpty then emptyReport
  else
    let sortedTimes := List.insertionSort (· ≤ ·) responseTimes
    { totalRequests := results.length
      successfulRequests := successfulResults.length
      failedRequests := results.length - successfulResults.length
      avgResponseTimeMs := some (responseTimes.sum / responseTimes.length)
      minResponseTimeMs := responseTimes.min?
      maxResponseTimeMs := responseTimes.max?
      p95ResponseTimeMs :=
        if 20 ≤ responseTimes.length then
          some (sortedTimes.getD (responseTimes.length * 95 / 100) 0)
        else none
      p99ResponseTimeMs :=
        if 20 ≤ responseTimes.length then
          some (sortedTimes.getD (responseTimes.length * 99 / 100) 0)
        else none }

/-- Counterexample to C7: one recorded sample whose response time is 0 ms
(a sub-millisecond response truncated by `int((end-start)*1000)`).  The claim
says the persisted report has `total = N = 1`; the code's
`if response_times:` guard filters on positive times, sees none, and leaves
the report's zero counters untouched. -/
theorem C7_zero_time_sample_counterexample :
    (updateReportMetrics [{ responseTimeMs := 0, isSuccess := true }]).totalRequests = 0 ∧
    (updateReportMetrics [{ responseTimeMs := 0, isSuccess := true }]).totalRequests ≠ 1 := by
  decide

/-- C7 (amended): when at least one recorded response time is positive, the
report has `total = N`, `success + failed = N`; `avg`/`min`/`max` are over
the `M` positive response times (`avg` the truncated mean `sum / M`); `p95`
and `p99` are defined exactly when `M ≥ 20`, in which case they read the
sorted positive times at the in-range indices `floor(0.95·M)` and
`floor(0.99·M)`.  With no positive response time the report keeps its zeroed
counters and null statistics. -/
theorem C7_report_aggregates (results : List LTResult)
    (h : (results.filter fun r => 0 < r.responseTimeMs) ≠ []) :
    (updateReportMetrics results).totalRequests = results.length ∧
    (updateReportMetrics results).successfulRequests +
        (updateReportMetrics results).failedRequests = results.length ∧
    (updateReportMetrics results).avgResponseTimeMs =
      some (((results.filter fun r => 0 < r.responseTimeMs).map fun r =>
          r.responseTimeMs).sum /
        ((results.filter fun r => 0 < r.responseTimeMs).map fun r =>
          r.responseTimeMs).length) ∧
    (updateReportMetrics results).minResponseTimeMs =
      ((results.filter fun r => 0 < r.responseTimeMs).map fun r =>
        r.responseTimeMs).min? ∧
    (updateReportMetrics results).maxResponseTimeMs =
      ((results.filter fun r => 0 < r.responseTimeMs).map fun r =>
        r.responseTimeMs).max? ∧
    ((updateReportMetrics results).p95ResponseTimeMs ≠ none ↔
      20 ≤ ((results.filter fun r => 0 < r.responseTimeMs).map fun r =>
        r.responseTimeMs).length) ∧
    (∀ M, M = ((results.filter fun r => 0 < r.responseTimeMs).map fun r =>
        r.responseTimeMs).length → 20 ≤ M →
      M * 95 / 100 < M ∧ M * 99 / 100 < M ∧
      (updateReportMetrics results).p95ResponseTimeMs =
        some ((List.insertionSort (· ≤ ·)
          ((results.filter fun r => 0 < r.responseTimeMs).map fun r =>
            r.responseTimeMs)).getD (M * 95 / 100) 0) ∧
      (updateReportMetrics results).p99ResponseTimeMs =
        some ((List.insertionSort (· ≤ ·)
          ((results.filter fun r => 0 < r.responseTimeMs).map fun r =>
            r.responseTimeMs)).getD (M * 99 / 100) 0)) := by
  have hne : (((results.filter fun r => 0 < r.responseTimeMs).map fun r =>
      r.responseTimeMs).isEmpty) = false := by
    simp [List.isEmpty_iff, h]
  have hsuc : (results.filter fun r => r.isSuccess).length ≤ results.length :=
    List.length_filter_le _ _
  refine ⟨?_, ?_, ?_, ?_, ?_, ?_, ?_⟩
  · simp [updateReportMetrics, hne]
  · simp only [updateReportMetrics, hne]
    simp
    omega
  · simp [updateReportMetrics, hne]
  · simp [updateReportMetrics, hne]
  · simp [updateReportMetrics, hne]
  · by_cases h20 : 20 ≤ ((results.filter fun r => 0 < r.responseTimeMs).map
        fun r => r.responseTimeMs).length <;>
      simp [updateReportMetrics, hne, h20]
  · intro M hM h20
    subst hM
    have hlt95 : ((results.filter fun r => 0 < r.responseTimeMs).map fun r =>
        r.responseTimeMs).length * 95 / 100 <
        ((results.filter fun r => 0 < r.responseTimeMs).map fun r =>
          r.responseTimeMs).length := by
      apply Nat.div_lt_of_lt_mul
      omega
    have hlt99 : ((results.filter fun r => 0 < r.responseTimeMs).map fun r =>
        r.responseTimeMs).length * 99 / 100 <
        ((results.filter fun r => 0 < r.responseTimeMs).map fun r =>
          r.responseTimeMs).length := by
      apply Nat.div_lt_of_lt_mul
      omega
    have h20m : 20 ≤ (results.filter fun r => 0 < r.responseTimeMs).length := by
      simpa using h20
    refine ⟨hlt95, hlt99, ?_, ?_⟩ <;> simp [updateReportMetrics, hne, h20, h20m]

/-- Witness for C7 at two samples, 5 ms success and 7 ms failure: counters
cover both, the mean truncates to 6, percentiles stay null below 20
samples. -/
theorem C7_report_aggregates_witness :
    (updateReportMetrics [{ responseTimeMs := 5, isSuccess := true },
        { responseTimeMs := 7, isSuccess := false }]).totalRequests = 2 ∧
    (updateReportMetrics [{ responseTimeMs := 5, isSuccess := true },
        { responseTimeMs := 7, isSuccess := false }]).avgResponseTimeMs =
      some 6 ∧
    (updateReportMetrics [{ responseTimeMs := 5, isSuccess := true },
        { responseTimeMs := 7, isSuccess := false }]).minResponseTimeMs =
      some 5 ∧
    (updateReportMetrics [{ responseTimeMs := 5, isSuccess := true },
        { responseTimeMs := 7, isSuccess := false }]).p95ResponseTimeMs =
      none := by
  have h := C7_report_aggregates
    [{ responseTimeMs := 5, isSuccess := true },
     { responseTimeMs := 7, isSuccess := false }] (by decide)
  exact ⟨h.1.trans (by decide), by decide, by decide, by decide⟩

/-- Worker coroutine of `LoadTestService._execute_load_test`
(load_test_service.py lines 419-455), at iteration granularity: `clock`
lists the `time.time()` readings at the successive `while` checks; each
iteration requests every endpoint in order; the loop exits when the clock
reading reaches `endTime` (start + duration).  `runStatus` records what a
poll of the run's `status` column between iterations would have returned —
the loop body never reads it: the source contains no status check. -/
def workerLoopRequests (endpoints : List Endpoint) (clock : List Nat)
    (endTime : Nat) (runStatus : Nat → String) : List Endpoint :=
  match clock with
  | [] => []
  | t :: rest =>
      if t < endTime then
        endpoints ++ workerLoopRequests endpoints rest endTime runStatus
      else []

/-- End of `run_load_test` (load_test_service.py lines 383-390): the run is
marked `completed`, or `failed` on an unhandled error. -/
def runFinalStatus (unhandledError : Bool) : String :=
  if unhandledError then "failed" else "completed"

/-- Counterexample to C9: the run's status reads `cancelled` before the very
first iteration (and at every poll the claim says happens), yet the
virtual-user task still performs the full iteration instead of exiting its
loop. -/
theorem C9_cancelled_status_not_observed_counterexample :
    workerLoopRequests [{ url := "a", order := 0 }] [0] 10
        (fun _ => "cancelled") =
      [{ url := "a", order := 0 }] ∧
    workerLoopRequests [{ url := "a", order := 0 }] [0] 10
        (fun _ => "cancelled") ≠ ([] : List Endpoint) := by
  decide

/-- C9 (amended): virtual-user tasks never poll the run status — the
requests performed are the same whatever the status reads, one full pass
over the endpoint list per clock reading below the end time — and the run
is finally marked `completed` or `failed`, never `cancelled`. -/
theorem C9_worker_loop_ignores_run_status (endpoints : List Endpoint)
    (clock : List Nat) (endTime : Nat) (s1 s2 : Nat → String) :
    workerLoopRequests endpoints clock endTime s1 =
      workerLoopRequests endpoints clock endTime s2 ∧
    (workerLoopRequests endpoints clock endTime s1).length =
      endpoints.length *
        (clock.takeWhile fun t => decide (t < endTime)).length ∧
    (∀ unhandledError : Bool, runFinalStatus unhandledError ≠ "cancelled") := by
  refine ⟨?_, ?_, ?_⟩
  · induction clock with
    | nil => rfl
    | cons t rest ih =>
        unfold workerLoopRequests
        by_cases ht : t < endTime
        · rw [if_pos ht, if_pos ht, ih]
        · rw [if_neg ht, if_neg ht]
  · induction clock with
    | nil => simp [workerLoopRequests]
    | cons t rest ih =>
        unfold workerLoopRequests
        by_cases ht : t < endTime
        · rw [if_pos ht]
          simp [List.takeWhile_cons, ht, ih]
          ring
        · rw [if_neg ht]
          simp [List.takeWhile_cons, ht]
  · intro unhandledError
    cases unhandledError <;> decide

end OrcSched
